import Mathlib

/-!
Shallow embedding of the core logic of the GeoShapely daily geography
guessing game (daily puzzle selection, round state machine, filtered
random selection, share-text formatting, geo helpers), together with
theorems settling the specification claims.
-/

/-- Continent union type from `types.ts` (five regions plus the `'All'`
selector, which the TypeScript type itself includes). -/
inductive Continent
  | Africa
  | Americas
  | Asia
  | Europe
  | Oceania
  | All
deriving DecidableEq, Repr

/-- Difficulty union type from `types.ts`. -/
inductive Difficulty
  | Easy
  | Normal
  | Hard
deriving DecidableEq, Repr

/-- CountryType union type from `types.ts`. -/
inductive CountryType
  | Sovereign
  | Territory
deriving DecidableEq, Repr

/-- Country record from `types.ts`.  Coordinates are modelled as rationals
(the reference data holds decimal literals). -/
structure Country where
  name : String
  code : String
  capital : String
  lat : ℚ
  lng : ℚ
  continent : Continent
  difficulty : Difficulty
  type : CountryType
deriving DecidableEq, Repr

/-- GameState record from `types.ts`. -/
structure GameState where
  date : String
  guesses : List String
  isFinished : Bool
  won : Bool
deriving DecidableEq, Repr

/-- The `'Mixed'` option of `GameFilter.difficulty` (`Difficulty | 'Mixed'`
in `types.ts`). -/
inductive DifficultyFilter
  | Easy
  | Normal
  | Hard
  | Mixed
deriving DecidableEq, Repr

/-- The `'All'` option of `GameFilter.type` (`CountryType | 'All'` in
`types.ts`). -/
inductive CountryTypeFilter
  | Sovereign
  | Territory
  | All
deriving DecidableEq, Repr

/-- GameFilter record from `types.ts`. -/
structure GameFilter where
  continent : Continent
  difficulty : DifficultyFilter
  type : CountryTypeFilter
deriving DecidableEq, Repr

/-- Modelled from the spec: `MAX_GUESSES` is imported from `./constants`,
which is absent from the sources; the spec fixes the attempt budget at 6. -/
def MAX_GUESSES : Nat := 6

/-- JavaScript `String.prototype.toLowerCase`, modelled as the per-character
simple lowercase mapping. -/
def toLowerCase (s : String) : String := ⟨s.data.map Char.toLower⟩

/-- The `===` comparison of a country's difficulty against the
`Difficulty | 'Mixed'` field of a filter (string equality in the source). -/
def difficultyMatches (d : Difficulty) (f : DifficultyFilter) : Bool :=
  match d, f with
  | .Easy, .Easy => true
  | .Normal, .Normal => true
  | .Hard, .Hard => true
  | _, _ => false

/-- The `===` comparison of a country's type against the
`CountryType | 'All'` field of a filter (string equality in the source). -/
def typeMatches (t : CountryType) (f : CountryTypeFilter) : Bool :=
  match t, f with
  | .Sovereign, .Sovereign => true
  | .Territory, .Territory => true
  | _, _ => false

/-- `handleGuess` from `App.tsx` (the round state machine transition),
with the active country's name and the previous state passed explicitly.
Mirrors the source: no-op when finished, otherwise case-insensitive
comparison, append, and the game-over computation. -/
def handleGuess (activeCountryName : String) (activeState : GameState)
    (countryName : String) : GameState :=
  if activeState.isFinished then activeState
  else
    let isCorrect := toLowerCase countryName == toLowerCase activeCountryName
    let newGuesses := activeState.guesses ++ [countryName]
    let isGameOver := isCorrect || decide (newGuesses.length ≥ MAX_GUESSES)
    { activeState with
        guesses := newGuesses
        isFinished := isGameOver
        won := isCorrect }

/-- The fresh round state the app builds for a given date key
(empty guesses, not finished, not won). -/
def initialState (date : String) : GameState :=
  { date := date, guesses := [], isFinished := false, won := false }

/-- Submitting a whole sequence of guesses in order. -/
def playGuesses (activeCountryName : String) (s : GameState)
    (gs : List String) : GameState :=
  gs.foldl (handleGuess activeCountryName) s

/-- Invariant carried by every state reachable from a fresh round:
length at most 6, and strictly below 6 while unfinished. -/
def stateInv (s : GameState) : Prop :=
  s.guesses.length ≤ MAX_GUESSES ∧
    (s.isFinished = false → s.guesses.length < MAX_GUESSES)

theorem handleGuess_finished (target : String) (s : GameState)
    (g : String) (h : s.isFinished = true) : handleGuess target s g = s := by
  simp [handleGuess, h]

theorem handleGuess_preserves_inv (target : String) (s : GameState)
    (g : String) (h : stateInv s) : stateInv (handleGuess target s g) := by
  obtain ⟨h1, h2⟩ := h
  by_cases hf : s.isFinished = true
  · simpa [handleGuess_finished target s g hf] using ⟨h1, h2⟩
  · have hf' : s.isFinished = false := by
      cases hfin : s.isFinished
      · rfl
      · exact absurd hfin hf
    have hlt := h2 hf'
    constructor
    · simp [handleGuess, hf']
      omega
    · intro hfin
      simp [handleGuess, hf'] at hfin ⊢
      omega

theorem playGuesses_preserves_inv (target : String) (gs : List String)
    (s : GameState) (h : stateInv s) : stateInv (playGuesses target s gs) := by
  induction gs generalizing s with
  | nil => simpa [playGuesses] using h
  | cons g gs ih =>
      have := handleGuess_preserves_inv target s g h
      simpa [playGuesses, List.foldl_cons] using ih _ this

/-- C1: For every non-finished round state, submitting a guess compares the
guess text to the target name case-insensitively, appends it to the guess
sequence, and yields Won if it matched, Lost if the sequence has now reached
6 without a match, and otherwise stays InProgress; with target "France" the
guesses ["Spain","Germany","France"] end Won with 3 guesses, and six
non-matching guesses end Lost with 6 guesses. -/
theorem round_outcome_submitGuess (target g : String) (s : GameState)
    (h : s.isFinished = false) :
    (handleGuess target s g).guesses = s.guesses ++ [g] ∧
    ((toLowerCase g == toLowerCase target) = true →
      (handleGuess target s g).isFinished = true ∧
        (handleGuess target s g).won = true) ∧
    ((toLowerCase g == toLowerCase target) = false →
      (handleGuess target s g).won = false ∧
      (s.guesses.length + 1 ≥ 6 → (handleGuess target s g).isFinished = true) ∧
      (s.guesses.length + 1 < 6 → (handleGuess target s g).isFinished = false)) ∧
    (playGuesses "France" (initialState "2024-01-01")
        ["Spain", "Germany", "France"] =
      { date := "2024-01-01", guesses := ["Spain", "Germany", "France"],
        isFinished := true, won := true }) ∧
    (playGuesses "France" (initialState "2024-01-01")
        ["Spain", "Germany", "Italy", "Brazil", "Japan", "Egypt"] =
      { date := "2024-01-01",
        guesses := ["Spain", "Germany", "Italy", "Brazil", "Japan", "Egypt"],
        isFinished := true, won := false }) := by
  refine ⟨?_, ?_, ?_, by decide, by decide⟩
  · simp [handleGuess, h]
  · intro hc
    simp [handleGuess, h, hc]
  · intro hc
    refine ⟨by simp [handleGuess, h, hc], ?_, ?_⟩
    · intro hlen
      simp [handleGuess, h, hc, MAX_GUESSES]
      omega
    · intro hlen
      simp [handleGuess, h, hc, MAX_GUESSES]
      omega

theorem round_outcome_submitGuess_witness :
    (initialState "2024-01-01").isFinished = false ∧
    (handleGuess "France" (initialState "2024-01-01") "france").guesses =
      [] ++ ["france"] := by
  exact ⟨by decide,
    (round_outcome_submitGuess "France" "france" (initialState "2024-01-01")
      (by decide)).1⟩

/-- C2: Every state reachable by submitGuess from the fresh empty InProgress
state has at most 6 guesses, and submitGuess on any finished state returns it
unchanged (silent no-op). -/
theorem guess_bound_and_finished_noop :
    (∀ (date target : String) (gs : List String),
      (playGuesses target (initialState date) gs).guesses.length ≤ 6) ∧
    (∀ (target : String) (s : GameState) (g : String),
      s.isFinished = true → handleGuess target s g = s) := by
  constructor
  · intro date target gs
    have h0 : stateInv (initialState date) := by
      constructor <;> simp [initialState, MAX_GUESSES]
    exact (playGuesses_preserves_inv target gs (initialState date) h0).1
  · intro target s g h
    exact handleGuess_finished target s g h

theorem guess_bound_and_finished_noop_witness :
    handleGuess "France"
        { date := "2024-01-01", guesses := ["France"], isFinished := true,
          won := true } "Spain" =
      { date := "2024-01-01", guesses := ["France"], isFinished := true,
        won := true } :=
  guess_bound_and_finished_noop.2 "France" _ "Spain" (by decide)

/-- C10: Submitting a guess on a non-finished state preserves the round's
date key: only guesses, isFinished and won change. -/
theorem submitGuess_preserves_date (target g : String) (s : GameState)
    (h : s.isFinished = false) :
    (handleGuess target s g).date = s.date := by
  simp [handleGuess, h]

theorem submitGuess_preserves_date_witness :
    (handleGuess "France" (initialState "2024-03-05") "Spain").date =
      (initialState "2024-03-05").date :=
  submitGuess_preserves_date "France" "Spain" (initialState "2024-03-05")
    (by decide)

/-- `getDailyCountry` from `utils.ts`, with the `COUNTRIES` reference list
(imported from `./constants`, absent from the sources) and the day number
(read from the clock in the source) passed explicitly.  An out-of-range
index (empty Sovereign pool) gives `none`, as JavaScript indexing gives
`undefined`. -/
def getDailyCountry (countries : List Country) (dayNumber : Nat) :
    Option Country :=
  let sovereignPool := countries.filter (fun c => c.type == CountryType.Sovereign)
  sovereignPool[dayNumber % sovereignPool.length]?

/-- Sample reference entries for concrete evaluations. -/
def france : Country :=
  { name := "France", code := "FR", capital := "Paris", lat := 46, lng := 2,
    continent := Continent.Europe, difficulty := Difficulty.Easy,
    type := CountryType.Sovereign }

/-- Sample reference entries for concrete evaluations. -/
def guam : Country :=
  { name := "Guam", code := "GU", capital := "Hagatna", lat := 13, lng := 144,
    continent := Continent.Oceania, difficulty := Difficulty.Hard,
    type := CountryType.Territory }

/-- C3: the daily puzzle filters the reference list to Sovereign entries in
load order and picks index `n % pool.length`; it is deterministic (equal
residues give the identical country) and every returned country is a
Sovereign entry of the reference list. -/
theorem dailyCountry_sovereign_and_deterministic
    (countries : List Country) (n : Nat) :
    (∀ c, getDailyCountry countries n = some c →
      c.type = CountryType.Sovereign ∧ c ∈ countries) ∧
    (getDailyCountry countries n =
      (countries.filter (fun c => c.type == CountryType.Sovereign))[n %
        (countries.filter (fun c => c.type == CountryType.Sovereign)).length]?) ∧
    ((countries.filter (fun c => c.type == CountryType.Sovereign)).length ≠ 0 →
      ∃ c, getDailyCountry countries n = some c) ∧
    (∀ m, m % (countries.filter (fun c => c.type == CountryType.Sovereign)).length =
        n % (countries.filter (fun c => c.type == CountryType.Sovereign)).length →
      getDailyCountry countries m = getDailyCountry countries n) := by
  refine ⟨?_, rfl, ?_, ?_⟩
  · intro c hc
    have hmem : c ∈ countries.filter (fun c => c.type == CountryType.Sovereign) := by
      have := List.getElem?_mem hc
      exact this
    rw [List.mem_filter] at hmem
    refine ⟨?_, hmem.1⟩
    have := hmem.2
    simpa using this
  · intro hlen
    have hlt : n % (countries.filter (fun c => c.type == CountryType.Sovereign)).length <
        (countries.filter (fun c => c.type == CountryType.Sovereign)).length :=
      Nat.mod_lt _ (Nat.pos_of_ne_zero hlen)
    exact ⟨_, List.getElem?_eq_getElem hlt⟩
  · intro m hm
    show (countries.filter (fun c => c.type == CountryType.Sovereign))[m %
        (countries.filter (fun c => c.type == CountryType.Sovereign)).length]? =
      (countries.filter (fun c => c.type == CountryType.Sovereign))[n %
        (countries.filter (fun c => c.type == CountryType.Sovereign)).length]?
    rw [hm]

theorem dailyCountry_sovereign_and_deterministic_witness :
    france.type = CountryType.Sovereign ∧ france ∈ [guam, france] :=
  (dailyCountry_sovereign_and_deterministic [guam, france] 0).1 france (by decide)

/-- The value of `pool` in `getRandomCountryFiltered` just before the
selection step: the conjunctive continent/difficulty/type filters followed
by the exclusion (skipped for a missing or empty code, which are falsy). -/
def filteredPool (countries : List Country) (f : GameFilter)
    (excludeCode : Option String) : List Country :=
  let pool := countries
  let pool := if f.continent == Continent.All then pool
    else pool.filter (fun c => c.continent == f.continent)
  let pool := if f.difficulty == DifficultyFilter.Mixed then pool
    else pool.filter (fun c => difficultyMatches c.difficulty f.difficulty)
  let pool := if f.type == CountryTypeFilter.All then pool
    else pool.filter (fun c => typeMatches c.type f.type)
  match excludeCode with
  | some code => if code == "" then pool else pool.filter (fun c => c.code != code)
  | none => pool

/-- `getRandomCountryFiltered` from `utils.ts`, with `COUNTRIES` passed
explicitly and the random draw `Math.floor(Math.random() * n)` modelled by
`pick n` (a caller-supplied index below `n`). -/
def getRandomCountryFiltered (countries : List Country) (f : GameFilter)
    (excludeCode : Option String) (pick : Nat → Nat) : Option Country :=
  let pool := filteredPool countries f excludeCode
  if pool.length == 0 then countries[pick countries.length]?
  else pool[pick pool.length]?

theorem mem_filteredPool (countries : List Country) (f : GameFilter)
    (excludeCode : Option String) (c : Country) :
    c ∈ filteredPool countries f excludeCode ↔
      c ∈ countries ∧
      (f.continent = Continent.All ∨ c.continent = f.continent) ∧
      (f.difficulty = DifficultyFilter.Mixed ∨
        difficultyMatches c.difficulty f.difficulty = true) ∧
      (f.type = CountryTypeFilter.All ∨ typeMatches c.type f.type = true) ∧
      (∀ code, excludeCode = some code → code ≠ "" → c.code ≠ code) := by
  unfold filteredPool
  by_cases h1 : f.continent = Continent.All <;>
    by_cases h2 : f.difficulty = DifficultyFilter.Mixed <;>
      by_cases h3 : f.type = CountryTypeFilter.All <;>
        cases excludeCode with
        | none => simp [h1, h2, h3, List.mem_filter] <;> tauto
        | some code =>
            by_cases h4 : code = "" <;>
              simp [h1, h2, h3, h4, List.mem_filter, and_assoc] <;> tauto

/-- C4: random selection applies the continent/difficulty/type filters
conjunctively and then the exclusion; a result always exists (never an
error): it lies in the filtered pool when that pool is non-empty, and is
drawn from the entire unfiltered reference list when the pool is empty. -/
theorem randomCountryFiltered_total_and_conjunctive
    (countries : List Country) (f : GameFilter) (excludeCode : Option String)
    (pick : Nat → Nat) (hne : countries ≠ [])
    (hpick : ∀ n, 0 < n → pick n < n) :
    (∃ c, getRandomCountryFiltered countries f excludeCode pick = some c) ∧
    (∀ c, getRandomCountryFiltered countries f excludeCode pick = some c →
      c ∈ countries ∧
      (filteredPool countries f excludeCode ≠ [] →
        c ∈ filteredPool countries f excludeCode)) ∧
    (∀ c, c ∈ filteredPool countries f excludeCode ↔
      c ∈ countries ∧
      (f.continent = Continent.All ∨ c.continent = f.continent) ∧
      (f.difficulty = DifficultyFilter.Mixed ∨
        difficultyMatches c.difficulty f.difficulty = true) ∧
      (f.type = CountryTypeFilter.All ∨ typeMatches c.type f.type = true) ∧
      (∀ code, excludeCode = some code → code ≠ "" → c.code ≠ code)) := by
  refine ⟨?_, ?_, fun c => mem_filteredPool countries f excludeCode c⟩
  · by_cases hp : (filteredPool countries f excludeCode).length = 0
    · have hlen : 0 < countries.length := List.length_pos.mpr hne
      have hlt := hpick countries.length hlen
      exact ⟨countries[pick countries.length],
        by simp [getRandomCountryFiltered, hp, List.getElem?_eq_getElem hlt]⟩
    · have hlen : 0 < (filteredPool countries f excludeCode).length :=
        Nat.pos_of_ne_zero hp
      have hlt := hpick _ hlen
      exact ⟨(filteredPool countries f excludeCode)[pick
          (filteredPool countries f excludeCode).length],
        by simp [getRandomCountryFiltered, hp, List.getElem?_eq_getElem hlt]⟩
  · intro c hc
    by_cases hp : (filteredPool countries f excludeCode).length = 0
    · simp [getRandomCountryFiltered, hp] at hc
      exact ⟨List.getElem?_mem hc,
        fun hne' => absurd (List.length_eq_zero.mp hp) hne'⟩
    · simp [getRandomCountryFiltered, hp] at hc
      have hmem : c ∈ filteredPool countries f excludeCode :=
        List.getElem?_mem hc
      exact ⟨((mem_filteredPool countries f excludeCode c).mp hmem).1,
        fun _ => hmem⟩

theorem randomCountryFiltered_total_and_conjunctive_witness :
    ∃ c, getRandomCountryFiltered [guam, france]
        { continent := Continent.Europe, difficulty := DifficultyFilter.Mixed,
          type := CountryTypeFilter.All } none (fun _ => 0) = some c :=
  (randomCountryFiltered_total_and_conjunctive [guam, france]
    { continent := Continent.Europe, difficulty := DifficultyFilter.Mixed,
      type := CountryTypeFilter.All } none (fun _ => 0)
    (by decide) (fun n hn => hn)).1

/-- C9: when the filtered pool is empty, the fallback draws from the full
unfiltered list without re-applying the exclusion, so the returned country
can carry exactly the code the caller asked to avoid. -/
theorem randomFallback_ignores_exclusion :
    getRandomCountryFiltered [france]
        { continent := Continent.All, difficulty := DifficultyFilter.Mixed,
          type := CountryTypeFilter.All } (some "FR") (fun _ => 0) =
      some france ∧ france.code = "FR" := by
  exact ⟨by decide, by decide⟩

/-- The constant `MS_PER_DAY` from `utils.ts`. -/
def MS_PER_DAY : Int := 24 * 60 * 60 * 1000

/-- A calendar date, as carried by the `YYYY-MM-DD` strings in the source. -/
structure CalendarDate where
  year : Int
  month : Int
  day : Int
deriving DecidableEq, Repr

/-- Days since 1970-01-01 of a proleptic-Gregorian civil date.  Models what
JavaScript `new Date("YYYY-MM-DD")` computes for a date-only string: UTC
midnight of that calendar day, measured in whole days. -/
def daysFromCivil (dt : CalendarDate) : Int :=
  let y := if dt.month ≤ 2 then dt.year - 1 else dt.year
  let era := (if 0 ≤ y then y else y - 399) / 400
  let yoe := y - era * 400
  let mp := (dt.month + 9) % 12
  let doy := (153 * mp + 2) / 5 + dt.day - 1
  let doe := yoe * 365 + yoe / 4 - yoe / 100 + doy
  era * 146097 + doe - 719468

/-- `new Date("YYYY-MM-DD").getTime()`: milliseconds since the Unix epoch at
UTC midnight of the given calendar day. -/
def dateGetTime (dt : CalendarDate) : Int := daysFromCivil dt * MS_PER_DAY

/-- The epoch `new Date('2024-01-01')` used by `getDayNumber` in `utils.ts`. -/
def epochDate : CalendarDate := { year := 2024, month := 1, day := 1 }

/-- `getDayNumber` from `utils.ts`, with the London calendar date (read from
the clock in the source) passed explicitly: the absolute millisecond
difference to the epoch, divided by `MS_PER_DAY` and floored. -/
def getDayNumber (dt : CalendarDate) : Nat :=
  (dateGetTime dt - dateGetTime epochDate).natAbs / MS_PER_DAY.toNat

theorem getDayNumber_eq_natAbs (dt : CalendarDate) :
    getDayNumber dt = (daysFromCivil dt - daysFromCivil epochDate).natAbs := by
  unfold getDayNumber dateGetTime
  rw [← sub_mul, Int.natAbs_mul]
  have htn : MS_PER_DAY.toNat = 86400000 := rfl
  have hab : MS_PER_DAY.natAbs = 86400000 := rfl
  rw [htn, hab]
  omega

/-- C5 counterexample: 2023-12-31 is the calendar day after 2023-12-30, yet
`getDayNumber` (built on `Math.abs`) maps them to 2 and 1, so the successor
property of the claim fails on valid dates before the epoch. -/
theorem dayNumber_succ_fails_before_epoch :
    daysFromCivil { year := 2023, month := 12, day := 31 } =
      daysFromCivil { year := 2023, month := 12, day := 30 } + 1 ∧
    getDayNumber { year := 2023, month := 12, day := 30 } = 2 ∧
    getDayNumber { year := 2023, month := 12, day := 31 } = 1 ∧
    getDayNumber { year := 2023, month := 12, day := 31 } ≠
      getDayNumber { year := 2023, month := 12, day := 30 } + 1 :=
  ⟨by decide, by decide, by decide, by decide⟩

/-- C5 amended: restricted to dates on or after the epoch, the day number is
exactly the whole-calendar-day distance to the epoch (hence non-negative),
equal dates give equal results, and the next calendar day adds exactly 1. -/
theorem dayNumber_calendar_days_after_epoch (d d' : CalendarDate)
    (hd : daysFromCivil epochDate ≤ daysFromCivil d)
    (hsucc : daysFromCivil d' = daysFromCivil d + 1) :
    getDayNumber d = (daysFromCivil d - daysFromCivil epochDate).toNat ∧
    getDayNumber d' = getDayNumber d + 1 ∧
    (∀ e : CalendarDate, e = d → getDayNumber e = getDayNumber d) := by
  have h1 := getDayNumber_eq_natAbs d
  have h2 := getDayNumber_eq_natAbs d'
  refine ⟨?_, ?_, fun e he => by rw [he]⟩
  · rw [h1]
    omega
  · rw [h2, h1, hsucc]
    omega

theorem dayNumber_calendar_days_after_epoch_witness :
    getDayNumber { year := 2024, month := 1, day := 2 } =
      getDayNumber epochDate + 1 :=
  (dayNumber_calendar_days_after_epoch epochDate
    { year := 2024, month := 1, day := 2 } (by decide) (by decide)).2.1

/-- One result line of the share grid (the body of the `forEach` in
`generateShareGrid`): a success marker when the guess equals the correct
country case-insensitively, else a failure marker. -/
def shareGridLine (correctCountry guess : String) : String :=
  if toLowerCase guess == toLowerCase correctCountry then "🟩🟩🟩🟩🟩\n"
  else "🟥🟥🟥🟥🟥\n"

/-- `generateShareGrid` from `utils.ts`, with the day number (read from the
clock in the source; an input in the spec's signature) passed explicitly. -/
def generateShareGrid (dayNumber : Nat) (guesses : List String)
    (correctCountry : String) (isWin : Bool) (isInfinite : Bool) : String :=
  let count := if isWin then toString guesses.length else "X"
  let message := if isInfinite then "🌍 Shapely (Infinite Mode) 📍\n"
    else "🌍 Shapely No. " ++ toString dayNumber ++ " 📍\n"
  let message := message ++
    (if isWin then
      "Wow! 🌈 I guessed the right country in " ++ count ++ "/6 tries! 🏆✨\n\n"
    else "Ouch! 😅 Today's shape was a real mystery! X/6 💨☁️\n\n")
  let message := guesses.foldl
    (fun m g => m ++ shareGridLine correctCountry g) message
  message ++ "\nCome play this game too! 🗺️⚡🚀\nhttps://geoshapely.netlify.app/"

theorem foldl_append_shift (l : List String) (init : String) :
    l.foldl (· ++ ·) init = init ++ l.foldl (· ++ ·) "" := by
  induction l generalizing init with
  | nil => simp
  | cons a l ih =>
      simp only [List.foldl_cons]
      rw [ih (init ++ a), ih ("" ++ a)]
      simp [String.append_assoc]

theorem join_cons (a : String) (l : List String) :
    String.join (a :: l) = a ++ String.join l := by
  simp only [String.join, List.foldl_cons]
  rw [foldl_append_shift l ("" ++ a)]
  simp

theorem foldl_shareGrid (correctCountry : String) (guesses : List String)
    (init : String) :
    guesses.foldl (fun m g => m ++ shareGridLine correctCountry g) init =
      init ++ String.join (guesses.map (shareGridLine correctCountry)) := by
  induction guesses generalizing init with
  | nil => simp [String.join]
  | cons g gs ih =>
      simp only [List.foldl_cons, List.map_cons]
      rw [ih, join_cons, ← String.append_assoc]

theorem generateShareGrid_eq (n : Nat) (gs : List String) (t : String)
    (w i : Bool) :
    generateShareGrid n gs t w i =
      ((if i then "🌍 Shapely (Infinite Mode) 📍\n"
        else "🌍 Shapely No. " ++ toString n ++ " 📍\n") ++
       (if w then "Wow! 🌈 I guessed the right country in " ++
          (if w then toString gs.length else "X") ++ "/6 tries! 🏆✨\n\n"
        else "Ouch! 😅 Today's shape was a real mystery! X/6 💨☁️\n\n")) ++
      String.join (gs.map (shareGridLine t)) ++
      "\nCome play this game too! 🗺️⚡🚀\nhttps://geoshapely.netlify.app/" := by
  show (gs.foldl (fun m g => m ++ shareGridLine t g)
      ((if i then "🌍 Shapely (Infinite Mode) 📍\n"
        else "🌍 Shapely No. " ++ toString n ++ " 📍\n") ++
       (if w then "Wow! 🌈 I guessed the right country in " ++
          (if w then toString gs.length else "X") ++ "/6 tries! 🏆✨\n\n"
        else "Ouch! 😅 Today's shape was a real mystery! X/6 💨☁️\n\n"))) ++
      "\nCome play this game too! 🗺️⚡🚀\nhttps://geoshapely.netlify.app/" = _
  rw [foldl_shareGrid]

/-- C6: for a daily-mode win with guesses ["Spain","Germany","France"],
target "France" and day number 42, the share text has a title line
containing "42", an outcome line containing "3/6", exactly three result
lines in guess order (two failure markers then a success marker), and in
general one marker line per guess — success exactly when the guess equals
the target case-insensitively — followed by the fixed footer/link lines. -/
theorem shareGrid_structure :
    (generateShareGrid 42 ["Spain", "Germany", "France"] "France" true false =
      "🌍 Shapely No. 42 📍" ++ "\n" ++
      "Wow! 🌈 I guessed the right country in 3/6 tries! 🏆✨" ++ "\n" ++ "\n" ++
      "🟥🟥🟥🟥🟥" ++ "\n" ++ "🟥🟥🟥🟥🟥" ++ "\n" ++ "🟩🟩🟩🟩🟩" ++ "\n" ++
      "\n" ++ "Come play this game too! 🗺️⚡🚀" ++ "\n" ++
      "https://geoshapely.netlify.app/") ∧
    (∃ a b, "🌍 Shapely No. 42 📍" = a ++ "42" ++ b) ∧
    (∃ a b, "Wow! 🌈 I guessed the right country in 3/6 tries! 🏆✨" =
      a ++ "3/6" ++ b) ∧
    (∀ t g, shareGridLine t g =
      if toLowerCase g == toLowerCase t then "🟩🟩🟩🟩🟩\n"
      else "🟥🟥🟥🟥🟥\n") ∧
    (∀ (n : Nat) (gs : List String) (t : String) (w i : Bool),
      ∃ head, generateShareGrid n gs t w i =
        head ++ String.join (gs.map (shareGridLine t)) ++
          "\nCome play this game too! 🗺️⚡🚀\nhttps://geoshapely.netlify.app/") := by
  refine ⟨by decide, ⟨"🌍 Shapely No. ", " 📍", by decide⟩,
    ⟨"Wow! 🌈 I guessed the right country in ", " tries! 🏆✨", by decide⟩,
    fun t g => rfl, ?_⟩
  intro n gs t w i
  exact ⟨_, generateShareGrid_eq n gs t w i⟩

/-- C7: the share text is a deterministic function of the guesses, the
target name, the win flag, the mode flag and the day number: equal inputs
give character-for-character equal output. -/
theorem shareGrid_deterministic (g₁ g₂ : List String) (t₁ t₂ : String)
    (w₁ w₂ i₁ i₂ : Bool) (n₁ n₂ : Nat) (hg : g₁ = g₂) (ht : t₁ = t₂)
    (hw : w₁ = w₂) (hi : i₁ = i₂) (hn : n₁ = n₂) :
    generateShareGrid n₁ g₁ t₁ w₁ i₁ = generateShareGrid n₂ g₂ t₂ w₂ i₂ := by
  rw [hg, ht, hw, hi, hn]

theorem shareGrid_deterministic_witness :
    generateShareGrid 7 ["Chad"] "Chad" true true =
      generateShareGrid 7 ["Chad"] "Chad" true true :=
  shareGrid_deterministic ["Chad"] ["Chad"] "Chad" "Chad" true true true true
    7 7 rfl rfl rfl rfl rfl

/-- `deg2rad` from `utils.ts`. -/
noncomputable def deg2rad (deg : ℝ) : ℝ := deg * (Real.pi / 180)

/-- JavaScript `Math.atan2(y, x)`: the argument of the complex number
`x + y i`, valued in `(-π, π]`. -/
noncomputable def atan2 (y x : ℝ) : ℝ := Complex.arg ⟨x, y⟩

/-- The JavaScript `%` operator as applied in `getDirectionArrow` (its
dividend is non-negative there, where truncation agrees with flooring). -/
noncomputable def jsMod (a b : ℝ) : ℝ := a - b * ⌊a / b⌋

/-- The bearing `(Math.atan2(y, x) * 180 / Math.PI + 360) % 360` computed
inside `getDirectionArrow` in `utils.ts`, with `y` and `x` inlined. -/
noncomputable def bearing (lat1 lon1 lat2 lon2 : ℝ) : ℝ :=
  jsMod (atan2
      (Real.sin (deg2rad (lon2 - lon1)) * Real.cos (deg2rad lat2))
      (Real.cos (deg2rad lat1) * Real.sin (deg2rad lat2) -
        Real.sin (deg2rad lat1) * Real.cos (deg2rad lat2) *
          Real.cos (deg2rad (lon2 - lon1)))
      * 180 / Real.pi + 360) 360

/-- The cascade of eight 45°-octant tests applied to the bearing in
`getDirectionArrow` (final fallback is the North symbol, as in the source). -/
noncomputable def octant (brng : ℝ) : String :=
  if 337.5 ≤ brng ∨ brng < 22.5 then "⬆️"
  else if 22.5 ≤ brng ∧ brng < 67.5 then "↗️"
  else if 67.5 ≤ brng ∧ brng < 112.5 then "➡️"
  else if 112.5 ≤ brng ∧ brng < 157.5 then "↘️"
  else if 157.5 ≤ brng ∧ brng < 202.5 then "⬇️"
  else if 202.5 ≤ brng ∧ brng < 247.5 then "↙️"
  else if 247.5 ≤ brng ∧ brng < 292.5 then "⬅️"
  else if 292.5 ≤ brng ∧ brng < 337.5 then "↖️"
  else "⬆️"

/-- `getDirectionArrow` from `utils.ts`. -/
noncomputable def getDirectionArrow (lat1 lon1 lat2 lon2 : ℝ) : String :=
  octant (bearing lat1 lon1 lat2 lon2)

theorem octant_mem (b : ℝ) :
    octant b ∈ ["⬆️", "↗️", "➡️", "↘️", "⬇️", "↙️", "⬅️", "↖️"] := by
  unfold octant
  split_ifs <;> simp

theorem jsMod_nonneg_lt (a : ℝ) : 0 ≤ jsMod a 360 ∧ jsMod a 360 < 360 := by
  unfold jsMod
  have h1 : (360 : ℝ) * (a / 360) = a := by field_simp
  have h2 := mul_le_mul_of_nonneg_left (Int.floor_le (a / 360))
    (by norm_num : (0 : ℝ) ≤ 360)
  have h3 := mul_lt_mul_of_pos_left (Int.lt_floor_add_one (a / 360))
    (by norm_num : (0 : ℝ) < 360)
  rw [mul_add] at h3
  constructor <;> linarith

theorem octant_n (b : ℝ) (h : 337.5 ≤ b ∨ b < 22.5) : octant b = "⬆️" := by
  unfold octant
  rw [if_pos h]

theorem octant_ne (b : ℝ) (h1 : 22.5 ≤ b) (h2 : b < 67.5) :
    octant b = "↗️" := by
  have n1 : ¬(337.5 ≤ b ∨ b < 22.5) := by rintro (hc | hc) <;> linarith
  unfold octant
  rw [if_neg n1, if_pos ⟨h1, h2⟩]

theorem octant_e (b : ℝ) (h1 : 67.5 ≤ b) (h2 : b < 112.5) :
    octant b = "➡️" := by
  have n1 : ¬(337.5 ≤ b ∨ b < 22.5) := by rintro (hc | hc) <;> linarith
  have n2 : ¬(22.5 ≤ b ∧ b < 67.5) := by rintro ⟨hc1, hc2⟩; linarith
  unfold octant
  rw [if_neg n1, if_neg n2, if_pos ⟨h1, h2⟩]

theorem octant_se (b : ℝ) (h1 : 112.5 ≤ b) (h2 : b < 157.5) :
    octant b = "↘️" := by
  have n1 : ¬(337.5 ≤ b ∨ b < 22.5) := by rintro (hc | hc) <;> linarith
  have n2 : ¬(22.5 ≤ b ∧ b < 67.5) := by rintro ⟨hc1, hc2⟩; linarith
  have n3 : ¬(67.5 ≤ b ∧ b < 112.5) := by rintro ⟨hc1, hc2⟩; linarith
  unfold octant
  rw [if_neg n1, if_neg n2, if_neg n3, if_pos ⟨h1, h2⟩]

theorem octant_s (b : ℝ) (h1 : 157.5 ≤ b) (h2 : b < 202.5) :
    octant b = "⬇️" := by
  have n1 : ¬(337.5 ≤ b ∨ b < 22.5) := by rintro (hc | hc) <;> linarith
  have n2 : ¬(22.5 ≤ b ∧ b < 67.5) := by rintro ⟨hc1, hc2⟩; linarith
  have n3 : ¬(67.5 ≤ b ∧ b < 112.5) := by rintro ⟨hc1, hc2⟩; linarith
  have n4 : ¬(112.5 ≤ b ∧ b < 157.5) := by rintro ⟨hc1, hc2⟩; linarith
  unfold octant
  rw [if_neg n1, if_neg n2, if_neg n3, if_neg n4, if_pos ⟨h1, h2⟩]

theorem octant_sw (b : ℝ) (h1 : 202.5 ≤ b) (h2 : b < 247.5) :
    octant b = "↙️" := by
  have n1 : ¬(337.5 ≤ b ∨ b < 22.5) := by rintro (hc | hc) <;> linarith
  have n2 : ¬(22.5 ≤ b ∧ b < 67.5) := by rintro ⟨hc1, hc2⟩; linarith
  have n3 : ¬(67.5 ≤ b ∧ b < 112.5) := by rintro ⟨hc1, hc2⟩; linarith
  have n4 : ¬(112.5 ≤ b ∧ b < 157.5) := by rintro ⟨hc1, hc2⟩; linarith
  have n5 : ¬(157.5 ≤ b ∧ b < 202.5) := by rintro ⟨hc1, hc2⟩; linarith
  unfold octant
  rw [if_neg n1, if_neg n2, if_neg n3, if_neg n4, if_neg n5, if_pos ⟨h1, h2⟩]

theorem octant_w (b : ℝ) (h1 : 247.5 ≤ b) (h2 : b < 292.5) :
    octant b = "⬅️" := by
  have n1 : ¬(337.5 ≤ b ∨ b < 22.5) := by rintro (hc | hc) <;> linarith
  have n2 : ¬(22.5 ≤ b ∧ b < 67.5) := by rintro ⟨hc1, hc2⟩; linarith
  have n3 : ¬(67.5 ≤ b ∧ b < 112.5) := by rintro ⟨hc1, hc2⟩; linarith
  have n4 : ¬(112.5 ≤ b ∧ b < 157.5) := by rintro ⟨hc1, hc2⟩; linarith
  have n5 : ¬(157.5 ≤ b ∧ b < 202.5) := by rintro ⟨hc1, hc2⟩; linarith
  have n6 : ¬(202.5 ≤ b ∧ b < 247.5) := by rintro ⟨hc1, hc2⟩; linarith
  unfold octant
  rw [if_neg n1, if_neg n2, if_neg n3, if_neg n4, if_neg n5, if_neg n6,
    if_pos ⟨h1, h2⟩]

theorem octant_nw (b : ℝ) (h1 : 292.5 ≤ b) (h2 : b < 337.5) :
    octant b = "↖️" := by
  have n1 : ¬(337.5 ≤ b ∨ b < 22.5) := by rintro (hc | hc) <;> linarith
  have n2 : ¬(22.5 ≤ b ∧ b < 67.5) := by rintro ⟨hc1, hc2⟩; linarith
  have n3 : ¬(67.5 ≤ b ∧ b < 112.5) := by rintro ⟨hc1, hc2⟩; linarith
  have n4 : ¬(112.5 ≤ b ∧ b < 157.5) := by rintro ⟨hc1, hc2⟩; linarith
  have n5 : ¬(157.5 ≤ b ∧ b < 202.5) := by rintro ⟨hc1, hc2⟩; linarith
  have n6 : ¬(202.5 ≤ b ∧ b < 247.5) := by rintro ⟨hc1, hc2⟩; linarith
  have n7 : ¬(247.5 ≤ b ∧ b < 292.5) := by rintro ⟨hc1, hc2⟩; linarith
  unfold octant
  rw [if_neg n1, if_neg n2, if_neg n3, if_neg n4, if_neg n5, if_neg n6,
    if_neg n7, if_pos ⟨h1, h2⟩]

theorem bearing_north (lat1 lon1 lat2 lon2 : ℝ) (hlon : lon2 = lon1)
    (hlt : lat1 < lat2) (hlo : -90 ≤ lat1) (hhi : lat2 ≤ 90) :
    bearing lat1 lon1 lat2 lon2 = 0 := by
  have hpi := Real.pi_pos
  subst hlon
  unfold bearing
  rw [sub_self]
  have hdr0 : deg2rad 0 = 0 := by unfold deg2rad; ring
  rw [hdr0, Real.sin_zero, Real.cos_zero, zero_mul, mul_one]
  have hx : Real.cos (deg2rad lat1) * Real.sin (deg2rad lat2) -
      Real.sin (deg2rad lat1) * Real.cos (deg2rad lat2) =
      Real.sin (deg2rad lat2 - deg2rad lat1) := by
    rw [Real.sin_sub]; ring
  rw [hx]
  have hθeq : deg2rad lat2 - deg2rad lat1 = (lat2 - lat1) * (Real.pi / 180) := by
    unfold deg2rad; ring
  have hθ0 : 0 ≤ deg2rad lat2 - deg2rad lat1 := by
    rw [hθeq]
    exact mul_nonneg (by linarith) (by positivity)
  have hθπ : deg2rad lat2 - deg2rad lat1 ≤ Real.pi := by
    rw [hθeq]
    nlinarith
  have hsin : 0 ≤ Real.sin (deg2rad lat2 - deg2rad lat1) :=
    Real.sin_nonneg_of_nonneg_of_le_pi hθ0 hθπ
  have harg : atan2 0 (Real.sin (deg2rad lat2 - deg2rad lat1)) = 0 := by
    unfold atan2
    have hc : (⟨Real.sin (deg2rad lat2 - deg2rad lat1), 0⟩ : ℂ) =
        ((Real.sin (deg2rad lat2 - deg2rad lat1) : ℝ) : ℂ) := rfl
    rw [hc]
    exact Complex.arg_ofReal_of_nonneg hsin
  rw [harg, zero_mul, zero_div, zero_add]
  unfold jsMod
  norm_num

/-- C8: the direction arrow buckets the atan2-based bearing, normalized to
[0,360), into eight 45° octants (North covering [337.5,360) ∪ [0,22.5)); a
purely northward displacement yields the North symbol, and for all real
coordinates the result is one of the eight compass symbols — there is no
error condition. -/
theorem directionArrow_octants_and_north :
    (∀ lat1 lon1 lat2 lon2 : ℝ,
      getDirectionArrow lat1 lon1 lat2 lon2 ∈
        ["⬆️", "↗️", "➡️", "↘️", "⬇️", "↙️", "⬅️", "↖️"]) ∧
    (∀ lat1 lon1 lat2 lon2 : ℝ,
      0 ≤ bearing lat1 lon1 lat2 lon2 ∧ bearing lat1 lon1 lat2 lon2 < 360) ∧
    (∀ b : ℝ,
      (337.5 ≤ b ∨ b < 22.5 → octant b = "⬆️") ∧
      (22.5 ≤ b ∧ b < 67.5 → octant b = "↗️") ∧
      (67.5 ≤ b ∧ b < 112.5 → octant b = "➡️") ∧
      (112.5 ≤ b ∧ b < 157.5 → octant b = "↘️") ∧
      (157.5 ≤ b ∧ b < 202.5 → octant b = "⬇️") ∧
      (202.5 ≤ b ∧ b < 247.5 → octant b = "↙️") ∧
      (247.5 ≤ b ∧ b < 292.5 → octant b = "⬅️") ∧
      (292.5 ≤ b ∧ b < 337.5 → octant b = "↖️")) ∧
    (∀ lat1 lon1 lat2 lon2 : ℝ, lon2 = lon1 → lat1 < lat2 → -90 ≤ lat1 →
      lat2 ≤ 90 → getDirectionArrow lat1 lon1 lat2 lon2 = "⬆️") := by
  refine ⟨fun lat1 lon1 lat2 lon2 => octant_mem _,
    fun lat1 lon1 lat2 lon2 => jsMod_nonneg_lt _,
    fun b => ⟨octant_n b, fun h => octant_ne b h.1 h.2,
      fun h => octant_e b h.1 h.2, fun h => octant_se b h.1 h.2,
      fun h => octant_s b h.1 h.2, fun h => octant_sw b h.1 h.2,
      fun h => octant_w b h.1 h.2, fun h => octant_nw b h.1 h.2⟩,
    ?_⟩
  intro lat1 lon1 lat2 lon2 hlon hlt hlo hhi
  unfold getDirectionArrow
  rw [bearing_north lat1 lon1 lat2 lon2 hlon hlt hlo hhi]
  exact octant_n 0 (Or.inr (by norm_num))

theorem directionArrow_octants_and_north_witness :
    getDirectionArrow 0 0 10 0 = "⬆️" ∧ octant 100 = "➡️" :=
  ⟨(directionArrow_octants_and_north).2.2.2 0 0 10 0 rfl (by norm_num)
      (by norm_num) (by norm_num),
    ((directionArrow_octants_and_north).2.2.1 100).2.2.1
      ⟨by norm_num, by norm_num⟩⟩
